import Mathlib

/-!
Verification of `src/alise_minimal/lightning_module/fully_supervised_segmentation.py`.

The lightning module `AliseFSSeg` is orchestration glue: it wires an owned
model, a decoder and three cloned metric collections into the per-batch step
methods and per-epoch hooks of a training loop.  We embed it shallowly:

* Tensors carry explicit dimension fields and a total index function into `Int`
  (the element values themselves are never inspected by this module, only
  moved around by the einops rearrangements and the slice `label[:, 0, ...]`).
* The ALISE model, the decoder head and the loss are external collaborators
  (per the source imports they live outside this file); they are fields of the
  module state, of function type.
* A torchmetrics `MetricCollection` is modelled by its prefix, its metric
  names, an abstract per-metric aggregation function over the accumulated
  `update` calls, and the list of accumulated updates.  `clone(prefix=p)` deep
  copies the collection with a new prefix; `update` appends; `compute` maps
  each name to its aggregate.
* The Lightning logging sink is an event list; `self.log` appends a scalar
  event, `self.log_dict` appends a dict event.  When `log_dict` receives a
  metric collection object (as `on_train_epoch_end` does), the framework
  computes the collection when flushing it, so the embedding records a compute
  on the collection at that point.  Every call of `compute` on a collection is
  recorded in `computeTrace` (by collection prefix) so that how often each
  phase aggregates per epoch end is observable.
* The Python attribute `save_test_metrics`, which the constructor never
  creates and only `on_test_epoch_end` assigns, is an `Option` field:
  `none` models the absent attribute (reading it raises), `some` the stored
  mapping.
* The base class `TemplateModule` (not part of this excerpt) supplies the
  loss, the batch size `bs` and the logging sink; they appear as abstract
  fields of the configuration and state.
-/

/-- A 3-dimensional integer tensor: explicit dimensions plus a total index
function for the element data. -/
structure Tensor3 where
  d0 : Nat
  d1 : Nat
  d2 : Nat
  data : Nat → Nat → Nat → Int

/-- A 4-dimensional integer tensor. -/
structure Tensor4 where
  d0 : Nat
  d1 : Nat
  d2 : Nat
  d3 : Nat
  data : Nat → Nat → Nat → Nat → Int

/-- A 5-dimensional integer tensor. -/
structure Tensor5 where
  d0 : Nat
  d1 : Nat
  d2 : Nat
  d3 : Nat
  d4 : Nat
  data : Nat → Nat → Nat → Nat → Nat → Int

/-- The einops rearrangement "B T C H W -> B H W (T C)": the temporal and
channel axes are flattened into one trailing feature axis of size `T * C`,
with the time index major and the channel index minor. -/
def rearrange_btchw_to_bhwtc (x : Tensor5) : Tensor4 where
  d0 := x.d0
  d1 := x.d3
  d2 := x.d4
  d3 := x.d1 * x.d2
  data := fun b h w tc => x.data b (tc / x.d2) (tc % x.d2) h w

/-- The einops rearrangement "B H W F -> B F H W". -/
def rearrange_bhwf_to_bfhw (x : Tensor4) : Tensor4 where
  d0 := x.d0
  d1 := x.d3
  d2 := x.d1
  d3 := x.d2
  data := fun b f h w => x.data b h w f

/-- The `year1` sub-record of a batch: the time-series tensor, the positional
encodings and the padding mask (the latter two are opaque to this module and
only forwarded to the model). -/
structure YearData where
  sits : Tensor5
  positions : Tensor4
  pad_mask : Tensor4

/-- The batch container `CDBInput`: the `year1` data plus the multi-timestep
label tensor, whose first temporal slot is used as the target. -/
structure CDBInput where
  year1 : YearData
  label : Tensor4

/-- The Python slice `label[:, 0, ...]`: drop the temporal axis, keeping its
first slot. -/
def labelSlice0 (l : Tensor4) : Tensor3 where
  d0 := l.d0
  d1 := l.d2
  d2 := l.d3
  data := fun b h w => l.data b 0 h w

/-- A torch device: host memory or an accelerator card. -/
inductive Device where
  | cpu : Device
  | cuda : Nat → Device
  deriving DecidableEq, Repr

/-- A computed metric value: a scalar tagged with the device it resides on. -/
structure MVal where
  device : Device
  x : Int
  deriving DecidableEq, Repr

/-- The tensor method `.to(device=d, non_blocking=True)` on a scalar metric
value: move it to the target device. -/
def MVal.toDevice (v : MVal) (d : Device) : MVal where
  device := d
  x := v.x

/-- A torchmetrics `MetricCollection`: a prefix prepended to every computed
name, the metric names, an abstract aggregation function giving each metric's
value from the accumulated update calls, and the accumulated updates
(prediction, target) themselves. -/
structure MetricCollection where
  pfx : String
  names : List String
  agg : String → List (Tensor4 × Tensor3) → MVal
  updates : List (Tensor4 × Tensor3)

/-- `MetricCollection.clone(prefix=p)`: a deep copy with a new prefix and its
own accumulated state. -/
def MetricCollection.clone (m : MetricCollection) (p : String) : MetricCollection where
  pfx := p
  names := m.names
  agg := m.agg
  updates := m.updates

/-- `MetricCollection.update(pred, target)`: accumulate one update. -/
def MetricCollection.update (m : MetricCollection) (u : Tensor4 × Tensor3) :
    MetricCollection where
  pfx := m.pfx
  names := m.names
  agg := m.agg
  updates := m.updates ++ [u]

/-- `MetricCollection.compute()`: the mapping from each prefixed metric name to
its aggregate over the accumulated updates. -/
def MetricCollection.compute (m : MetricCollection) : List (String × MVal) :=
  m.names.map (fun n => (m.pfx ++ n, m.agg n m.updates))

/-- One event emitted to the Lightning logging sink: either `self.log` of a
scalar or `self.log_dict` of a mapping, with the options the source passes. -/
inductive LogEvent where
  | scalar (name : String) (value : Int) (on_step on_epoch : Bool)
      (batch_size : Nat) (prog_bar : Bool)
  | dict (entries : List (String × MVal)) (on_epoch : Bool)
      (batch_size : Nat) (prog_bar : Bool)

/-- `FSSegTrainConfig`: the training configuration; the `metrics` collection
is declared in this file's dataclass, `loss` and `bs` come from the base
`TrainConfig` contract supplied by the template module. -/
structure FSSegTrainConfig where
  metrics : MetricCollection
  loss : Tensor4 → Tensor3 → Int
  bs : Nat

/-- The state of an `AliseFSSeg` lightning module: the owned model and
decoder, the base-contract loss and batch size, the three phase metric
collections, the log-event sink, the trace of collection computes, and the
`save_test_metrics` attribute (`none` while the attribute does not exist). -/
structure AliseFSSeg where
  model : Tensor5 → Tensor4 → Tensor4 → Tensor5
  decoder : Tensor4 → Tensor4
  loss : Tensor4 → Tensor3 → Int
  bs : Nat
  train_metrics : MetricCollection
  val_metrics : MetricCollection
  test_metrics : MetricCollection
  logged : List LogEvent
  computeTrace : List String
  save_test_metrics : Option (List (String × MVal))

/-- `AliseFSSeg.__init__`: store the model and decoder, take loss and batch
size from the configuration, and clone the configured metric collection three
times with the phase prefixes.  The log sink starts empty and the
`save_test_metrics` attribute does not exist yet. -/
def AliseFSSeg.init (alise : Tensor5 → Tensor4 → Tensor4 → Tensor5)
    (decoder : Tensor4 → Tensor4) (train_config : FSSegTrainConfig) :
    AliseFSSeg where
  model := alise
  decoder := decoder
  loss := train_config.loss
  bs := train_config.bs
  train_metrics := train_config.metrics.clone "train_"
  val_metrics := train_config.metrics.clone "val_"
  test_metrics := train_config.metrics.clone "test_"
  logged := []
  computeTrace := []
  save_test_metrics := none

/-- `AliseFSSeg.forward`: call the owned model on the batch's `year1` fields,
rearrange "B T C H W -> B H W (T C)", apply the decoder, rearrange
"B H W F -> B F H W". -/
def AliseFSSeg.forward (s : AliseFSSeg) (batch : CDBInput) : Tensor4 :=
  let x := s.model batch.year1.sits batch.year1.positions batch.year1.pad_mask
  let x := rearrange_btchw_to_bhwtc x
  let x := s.decoder x
  rearrange_bhwf_to_bfhw x

/-- `AliseFSSeg.shared_step`: the forward output together with the loss of
that output against the first temporal slot of the label. -/
def AliseFSSeg.shared_step (s : AliseFSSeg) (batch : CDBInput) : Tensor4 × Int :=
  let out := s.forward batch
  let lossv := s.loss out (labelSlice0 batch.label)
  (out, lossv)

/-- `AliseFSSeg.training_step`: run the shared step, update the train metrics
with (prediction, first label slot), log the scalar loss as "train_loss" with
on_epoch, on_step and prog_bar enabled and the configured batch size, and
return the loss. -/
def AliseFSSeg.training_step (s : AliseFSSeg) (batch : CDBInput)
    (batch_idx : Nat) : AliseFSSeg × Int :=
  let r := s.shared_step batch
  let s1 := { s with
    train_metrics := s.train_metrics.update (r.1, labelSlice0 batch.label) }
  let s2 := { s1 with
    logged := s1.logged ++
      [LogEvent.scalar "train_loss" r.2 true true s.bs true] }
  (s2, r.2)

/-- `AliseFSSeg.on_train_epoch_end`: first an explicit
`self.train_metrics.compute()` whose result is discarded, then
`self.log_dict(self.train_metrics, ...)`, under which the framework computes
the collection again when flushing it; both computes are recorded. -/
def AliseFSSeg.on_train_epoch_end (s : AliseFSSeg) : AliseFSSeg :=
  let t1 := s.computeTrace ++ ["train_"]
  let entries := s.train_metrics.compute
  { s with
    computeTrace := t1 ++ ["train_"]
    logged := s.logged ++ [LogEvent.dict entries true s.bs true] }

/-- `AliseFSSeg.validation_step`: run the shared step and update only the
validation metrics; nothing is logged. -/
def AliseFSSeg.validation_step (s : AliseFSSeg) (batch : CDBInput)
    (batch_idx : Nat) : AliseFSSeg :=
  let r := s.shared_step batch
  { s with val_metrics := s.val_metrics.update (r.1, labelSlice0 batch.label) }

/-- `AliseFSSeg.on_validation_epoch_end`: compute the validation aggregates
once and log the resulting mapping directly. -/
def AliseFSSeg.on_validation_epoch_end (s : AliseFSSeg) : AliseFSSeg :=
  let outputs := s.val_metrics.compute
  { s with
    computeTrace := s.computeTrace ++ ["val_"]
    logged := s.logged ++ [LogEvent.dict outputs true s.bs true] }

/-- `AliseFSSeg.test_step`: run the shared step and update only the test
metrics; nothing is logged. -/
def AliseFSSeg.test_step (s : AliseFSSeg) (batch : CDBInput)
    (batch_idx : Nat) : AliseFSSeg :=
  let r := s.shared_step batch
  { s with test_metrics := s.test_metrics.update (r.1, labelSlice0 batch.label) }

/-- `AliseFSSeg.on_test_epoch_end`: compute the test aggregates once, move
every value to the cpu device, log the mapping, and store it in the
`save_test_metrics` attribute. -/
def AliseFSSeg.on_test_epoch_end (s : AliseFSSeg) : AliseFSSeg :=
  let outputs := s.test_metrics.compute
  let outputs2 := outputs.map (fun kv => (kv.1, kv.2.toDevice Device.cpu))
  { s with
    computeTrace := s.computeTrace ++ ["test_"]
    logged := s.logged ++ [LogEvent.dict outputs2 true s.bs true]
    save_test_metrics := some outputs2 }

/-- The three phases of the training loop. -/
inductive Phase where
  | train : Phase
  | val : Phase
  | test : Phase
  deriving DecidableEq, Repr

/-- One invocation the external scheduler can make on the module. -/
inductive PhaseOp where
  | trainStep (batch : CDBInput) (batch_idx : Nat) : PhaseOp
  | valStep (batch : CDBInput) (batch_idx : Nat) : PhaseOp
  | testStep (batch : CDBInput) (batch_idx : Nat) : PhaseOp
  | trainEpochEnd : PhaseOp
  | valEpochEnd : PhaseOp
  | testEpochEnd : PhaseOp

/-- The phase an invocation belongs to. -/
def PhaseOp.phase : PhaseOp → Phase
  | trainStep _ _ => Phase.train
  | valStep _ _ => Phase.val
  | testStep _ _ => Phase.test
  | trainEpochEnd => Phase.train
  | valEpochEnd => Phase.val
  | testEpochEnd => Phase.test

/-- Apply one scheduler invocation to the module state. -/
def AliseFSSeg.applyOp (s : AliseFSSeg) : PhaseOp → AliseFSSeg
  | PhaseOp.trainStep b i => (s.training_step b i).1
  | PhaseOp.valStep b i => s.validation_step b i
  | PhaseOp.testStep b i => s.test_step b i
  | PhaseOp.trainEpochEnd => s.on_train_epoch_end
  | PhaseOp.valEpochEnd => s.on_validation_epoch_end
  | PhaseOp.testEpochEnd => s.on_test_epoch_end

/-- Run a sequence of scheduler invocations. -/
def AliseFSSeg.runOps (s : AliseFSSeg) : List PhaseOp → AliseFSSeg
  | [] => s
  | op :: ops => (s.applyOp op).runOps ops

/-- The metric collection of a phase. -/
def AliseFSSeg.phaseMetrics (s : AliseFSSeg) : Phase → MetricCollection
  | Phase.train => s.train_metrics
  | Phase.val => s.val_metrics
  | Phase.test => s.test_metrics

/-- Run `training_step` (with batch index 0; the index is unused by the
source) over a list of batches in order. -/
def AliseFSSeg.trainSteps (s : AliseFSSeg) : List CDBInput → AliseFSSeg
  | [] => s
  | b :: bs => ((s.training_step b 0).1).trainSteps bs

/-! ## Theorems -/

/-- Claim C2: `shared_step` runs the forward pass and computes the loss of
the forward output against the first temporal slot of the label tensor,
returning the pair (prediction, loss); being a plain function of the module
state it has no side effects beyond this computation. -/
theorem shared_step_forward_and_loss (s : AliseFSSeg) (batch : CDBInput) :
    (s.shared_step batch).1 = s.forward batch ∧
    (s.shared_step batch).2 =
      s.loss (s.forward batch) (labelSlice0 batch.label) :=
  ⟨rfl, rfl⟩

/-- Claim C1: `forward` invokes the owned model on the batch's year1
time-series tensor, positions and padding mask, rearranges the (B,T,C,H,W)
output to (B,H,W,T*C), applies the decoder, and rearranges the decoder's
(B,H,W,F) output to (B,F,H,W); when the decoder preserves the first three
dimensions and outputs feature dimension F, the result has shape (B,F,H,W)
for a (B,T,C,H,W) model output. -/
theorem forward_shape (s : AliseFSSeg) (batch : CDBInput) (F : Nat)
    (hdec : ∀ x : Tensor4,
      (s.decoder x).d0 = x.d0 ∧ (s.decoder x).d1 = x.d1 ∧
      (s.decoder x).d2 = x.d2 ∧ (s.decoder x).d3 = F) :
    s.forward batch =
      rearrange_bhwf_to_bfhw (s.decoder (rearrange_btchw_to_bhwtc
        (s.model batch.year1.sits batch.year1.positions batch.year1.pad_mask))) ∧
    (s.forward batch).d0 =
      (s.model batch.year1.sits batch.year1.positions batch.year1.pad_mask).d0 ∧
    (s.forward batch).d1 = F ∧
    (s.forward batch).d2 =
      (s.model batch.year1.sits batch.year1.positions batch.year1.pad_mask).d3 ∧
    (s.forward batch).d3 =
      (s.model batch.year1.sits batch.year1.positions batch.year1.pad_mask).d4 := by
  refine ⟨rfl, ?_, ?_, ?_, ?_⟩
  · exact (hdec (rearrange_btchw_to_bhwtc
      (s.model batch.year1.sits batch.year1.positions batch.year1.pad_mask))).1
  · exact (hdec (rearrange_btchw_to_bhwtc
      (s.model batch.year1.sits batch.year1.positions batch.year1.pad_mask))).2.2.2
  · exact (hdec (rearrange_btchw_to_bhwtc
      (s.model batch.year1.sits batch.year1.positions batch.year1.pad_mask))).2.1
  · exact (hdec (rearrange_btchw_to_bhwtc
      (s.model batch.year1.sits batch.year1.positions batch.year1.pad_mask))).2.2.1

/-- A concrete decoder used by the witnesses: it keeps the leading three
dimensions and outputs feature dimension 2. -/
def witDecoder : Tensor4 → Tensor4 :=
  fun x => { d0 := x.d0, d1 := x.d1, d2 := x.d2, d3 := 2, data := fun _ _ _ _ => 0 }

/-- A concrete model used by the witnesses: constant output of shape
(1, 2, 3, 4, 5). -/
def witModel : Tensor5 → Tensor4 → Tensor4 → Tensor5 :=
  fun _ _ _ =>
    { d0 := 1, d1 := 2, d2 := 3, d3 := 4, d4 := 5, data := fun _ _ _ _ _ => 0 }

/-- A concrete 4-dimensional tensor used by the witnesses. -/
def witT4 : Tensor4 :=
  { d0 := 1, d1 := 1, d2 := 1, d3 := 1, data := fun _ _ _ _ => 0 }

/-- A concrete batch used by the witnesses. -/
def witBatch : CDBInput where
  year1 :=
    { sits := { d0 := 1, d1 := 2, d2 := 3, d3 := 4, d4 := 5
                data := fun _ _ _ _ _ => 0 }
      positions := witT4
      pad_mask := witT4 }
  label := { d0 := 1, d1 := 2, d2 := 4, d3 := 5, data := fun _ _ _ _ => 7 }

/-- A concrete metric collection used by the witnesses: two metrics whose
aggregate is the number of accumulated updates, on the cpu device. -/
def witMetrics : MetricCollection where
  pfx := ""
  names := ["acc", "iou"]
  agg := fun _ l => { device := Device.cpu, x := (l.length : Int) }
  updates := []

/-- A concrete configuration used by the witnesses. -/
def witConfig : FSSegTrainConfig where
  metrics := witMetrics
  loss := fun _ _ => 3
  bs := 4

/-- A concrete module state used by the witnesses. -/
def witState : AliseFSSeg :=
  AliseFSSeg.init witModel witDecoder witConfig

/-- Witness for claim C1: `forward_shape` applied to the concrete module and
batch, the decoder contract discharged by computation. -/
theorem forward_shape_witness :
    witState.forward witBatch =
      rearrange_bhwf_to_bfhw (witState.decoder (rearrange_btchw_to_bhwtc
        (witState.model witBatch.year1.sits witBatch.year1.positions
          witBatch.year1.pad_mask))) ∧
    (witState.forward witBatch).d0 =
      (witState.model witBatch.year1.sits witBatch.year1.positions
        witBatch.year1.pad_mask).d0 ∧
    (witState.forward witBatch).d1 = 2 ∧
    (witState.forward witBatch).d2 =
      (witState.model witBatch.year1.sits witBatch.year1.positions
        witBatch.year1.pad_mask).d3 ∧
    (witState.forward witBatch).d3 =
      (witState.model witBatch.year1.sits witBatch.year1.positions
        witBatch.year1.pad_mask).d4 :=
  forward_shape witState witBatch 2 (fun _ => ⟨rfl, rfl, rfl, rfl⟩)

/-- Claim C3: `training_step` runs the shared step, updates the train metrics
with the prediction and the first label slot, appends exactly one scalar log
event named "train_loss" carrying the shared-step loss with on_step, on_epoch
and prog_bar enabled and the configured batch size, and returns that same
loss; the logged value is the very Int returned. -/
theorem training_step_logs_loss (s : AliseFSSeg) (batch : CDBInput)
    (batch_idx : Nat) :
    ((s.training_step batch batch_idx).1).train_metrics =
      s.train_metrics.update ((s.shared_step batch).1, labelSlice0 batch.label) ∧
    ((s.training_step batch batch_idx).1).logged =
      s.logged ++ [LogEvent.scalar "train_loss" (s.shared_step batch).2
        true true s.bs true] ∧
    (s.training_step batch batch_idx).2 = (s.shared_step batch).2 :=
  ⟨rfl, rfl, rfl⟩

/-- Claim C9: in all three step methods the target passed to the metric
update is `labelSlice0 batch.label`, the embedding of `batch.label[:, 0, ...]`
(the loss target slice), never the full label tensor: `labelSlice0` drops the
temporal axis and reads the label data at temporal index 0. -/
theorem step_update_target_is_first_slot (s : AliseFSSeg) (batch : CDBInput)
    (batch_idx : Nat) :
    ((s.training_step batch batch_idx).1).train_metrics.updates =
      s.train_metrics.updates ++
        [((s.shared_step batch).1, labelSlice0 batch.label)] ∧
    (s.validation_step batch batch_idx).val_metrics.updates =
      s.val_metrics.updates ++
        [((s.shared_step batch).1, labelSlice0 batch.label)] ∧
    (s.test_step batch batch_idx).test_metrics.updates =
      s.test_metrics.updates ++
        [((s.shared_step batch).1, labelSlice0 batch.label)] ∧
    (labelSlice0 batch.label).d0 = batch.label.d0 ∧
    (labelSlice0 batch.label).d1 = batch.label.d2 ∧
    (labelSlice0 batch.label).d2 = batch.label.d3 ∧
    (labelSlice0 batch.label).data =
      fun b h w => batch.label.data b 0 h w :=
  ⟨rfl, rfl, rfl, rfl, rfl, rfl, rfl⟩

/-- Claim C8: `validation_step` and `test_step` run the shared step and
update only their own phase's metric collection: no log event is emitted, the
compute trace is untouched, and no other phase's collection or the test cache
changes. -/
theorem val_test_step_no_logging (s : AliseFSSeg) (batch : CDBInput)
    (batch_idx : Nat) :
    (s.validation_step batch batch_idx).logged = s.logged ∧
    (s.validation_step batch batch_idx).val_metrics =
      s.val_metrics.update ((s.shared_step batch).1, labelSlice0 batch.label) ∧
    (s.validation_step batch batch_idx).train_metrics = s.train_metrics ∧
    (s.validation_step batch batch_idx).test_metrics = s.test_metrics ∧
    (s.validation_step batch batch_idx).computeTrace = s.computeTrace ∧
    (s.validation_step batch batch_idx).save_test_metrics =
      s.save_test_metrics ∧
    (s.test_step batch batch_idx).logged = s.logged ∧
    (s.test_step batch batch_idx).test_metrics =
      s.test_metrics.update ((s.shared_step batch).1, labelSlice0 batch.label) ∧
    (s.test_step batch batch_idx).train_metrics = s.train_metrics ∧
    (s.test_step batch batch_idx).val_metrics = s.val_metrics ∧
    (s.test_step batch batch_idx).computeTrace = s.computeTrace ∧
    (s.test_step batch batch_idx).save_test_metrics = s.save_test_metrics :=
  ⟨rfl, rfl, rfl, rfl, rfl, rfl, rfl, rfl, rfl, rfl, rfl, rfl⟩

/-- Claim C5: at train epoch end the collection aggregate is computed twice
(once explicitly, once by the framework when the logged collection is
flushed), while validation and test epoch ends compute exactly once and log
the resulting mapping directly. -/
theorem epoch_end_compute_asymmetry (s : AliseFSSeg) :
    (s.on_train_epoch_end).computeTrace =
      s.computeTrace ++ ["train_", "train_"] ∧
    (s.on_train_epoch_end).logged =
      s.logged ++ [LogEvent.dict s.train_metrics.compute true s.bs true] ∧
    (s.on_validation_epoch_end).computeTrace = s.computeTrace ++ ["val_"] ∧
    (s.on_validation_epoch_end).logged =
      s.logged ++ [LogEvent.dict s.val_metrics.compute true s.bs true] ∧
    (s.on_test_epoch_end).computeTrace = s.computeTrace ++ ["test_"] ∧
    (s.on_test_epoch_end).logged =
      s.logged ++ [LogEvent.dict (s.test_metrics.compute.map
        (fun kv => (kv.1, kv.2.toDevice Device.cpu))) true s.bs true] := by
  refine ⟨?_, rfl, rfl, rfl, rfl, rfl⟩
  simp [AliseFSSeg.on_train_epoch_end]

/-- Claim C6: `on_test_epoch_end` computes the test aggregates, moves every
value to the cpu device, logs the mapping and stores it in
`save_test_metrics`; every stored value is cpu-resident. -/
theorem on_test_epoch_end_cpu_cache (s : AliseFSSeg) :
    (s.on_test_epoch_end).save_test_metrics =
      some (s.test_metrics.compute.map
        (fun kv => (kv.1, kv.2.toDevice Device.cpu))) ∧
    (s.on_test_epoch_end).logged =
      s.logged ++ [LogEvent.dict (s.test_metrics.compute.map
        (fun kv => (kv.1, kv.2.toDevice Device.cpu))) true s.bs true] ∧
    (((s.on_test_epoch_end).save_test_metrics).getD []).all
      (fun e => e.2.device == Device.cpu) = true := by
  refine ⟨rfl, rfl, ?_⟩
  show ((s.test_metrics.compute.map
    (fun kv => (kv.1, kv.2.toDevice Device.cpu))).all
      (fun e => e.2.device == Device.cpu)) = true
  induction s.test_metrics.compute with
  | nil => rfl
  | cons kv tl ih =>
      simp only [List.map_cons, List.all_cons, Bool.and_eq_true]
      exact ⟨rfl, ih⟩

/-- Claim C10: the constructor leaves the `save_test_metrics` attribute
absent (`none`); no step method or train/validation epoch-end hook changes
it; `on_test_epoch_end` overwrites it with the latest test epoch's
cpu-resident mapping. -/
theorem save_test_metrics_lifecycle
    (a : Tensor5 → Tensor4 → Tensor4 → Tensor5) (d : Tensor4 → Tensor4)
    (cfg : FSSegTrainConfig) (s : AliseFSSeg) (batch : CDBInput)
    (batch_idx : Nat) :
    (AliseFSSeg.init a d cfg).save_test_metrics = none ∧
    ((s.training_step batch batch_idx).1).save_test_metrics =
      s.save_test_metrics ∧
    (s.validation_step batch batch_idx).save_test_metrics =
      s.save_test_metrics ∧
    (s.test_step batch batch_idx).save_test_metrics = s.save_test_metrics ∧
    (s.on_train_epoch_end).save_test_metrics = s.save_test_metrics ∧
    (s.on_validation_epoch_end).save_test_metrics = s.save_test_metrics ∧
    (s.on_test_epoch_end).save_test_metrics =
      some (s.test_metrics.compute.map
        (fun kv => (kv.1, kv.2.toDevice Device.cpu))) :=
  ⟨rfl, rfl, rfl, rfl, rfl, rfl, rfl⟩

/-- Applying one scheduler invocation of a different phase leaves a phase's
metric collection unchanged. -/
theorem applyOp_other_phase (s : AliseFSSeg) (op : PhaseOp) (p : Phase)
    (h : op.phase ≠ p) :
    (s.applyOp op).phaseMetrics p = s.phaseMetrics p := by
  cases op <;> cases p <;> first
    | rfl
    | exact absurd rfl h

/-- Running any sequence of scheduler invocations none of which belongs to
phase `p` leaves phase `p`'s metric collection unchanged. -/
theorem runOps_other_phase (ops : List PhaseOp) (s : AliseFSSeg) (p : Phase)
    (h : ∀ op ∈ ops, op.phase ≠ p) :
    (s.runOps ops).phaseMetrics p = s.phaseMetrics p := by
  induction ops generalizing s with
  | nil => rfl
  | cons op ops ih =>
      show ((s.applyOp op).runOps ops).phaseMetrics p = s.phaseMetrics p
      rw [ih (s.applyOp op) (fun o ho => h o (List.mem_cons_of_mem _ ho))]
      exact applyOp_other_phase s op p (h op (List.mem_cons_self _ _))

/-- Claim C4: the constructor installs three clones of the configured metric
collection, prefixed "train_", "val_" and "test_"; the clones share no
accumulated state: any sequence of scheduler invocations that never touches
phase `p` leaves phase `p`'s collection, and hence its computed result,
unchanged. -/
theorem metric_clone_independence
    (a : Tensor5 → Tensor4 → Tensor4 → Tensor5) (d : Tensor4 → Tensor4)
    (cfg : FSSegTrainConfig) (s : AliseFSSeg) (ops : List PhaseOp) (p : Phase)
    (h : ∀ op ∈ ops, op.phase ≠ p) :
    (AliseFSSeg.init a d cfg).train_metrics = cfg.metrics.clone "train_" ∧
    (AliseFSSeg.init a d cfg).val_metrics = cfg.metrics.clone "val_" ∧
    (AliseFSSeg.init a d cfg).test_metrics = cfg.metrics.clone "test_" ∧
    (AliseFSSeg.init a d cfg).train_metrics.pfx = "train_" ∧
    (AliseFSSeg.init a d cfg).val_metrics.pfx = "val_" ∧
    (AliseFSSeg.init a d cfg).test_metrics.pfx = "test_" ∧
    (s.runOps ops).phaseMetrics p = s.phaseMetrics p ∧
    ((s.runOps ops).phaseMetrics p).compute = (s.phaseMetrics p).compute := by
  refine ⟨rfl, rfl, rfl, rfl, rfl, rfl, runOps_other_phase ops s p h, ?_⟩
  rw [runOps_other_phase ops s p h]

/-- A second concrete batch used by the witnesses. -/
def witBatch2 : CDBInput where
  year1 :=
    { sits := { d0 := 1, d1 := 2, d2 := 3, d3 := 4, d4 := 5
                data := fun _ _ _ _ _ => 1 }
      positions := witT4
      pad_mask := witT4 }
  label := { d0 := 1, d1 := 2, d2 := 4, d3 := 5, data := fun _ _ _ _ => 9 }

/-- A concrete invocation sequence touching only the validation and test
phases, used by the claim C4 witness. -/
def witOps : List PhaseOp :=
  [PhaseOp.valStep witBatch 0, PhaseOp.testStep witBatch2 1,
   PhaseOp.valEpochEnd, PhaseOp.testEpochEnd]

/-- Witness for claim C4: `metric_clone_independence` applied to the concrete
module and an invocation sequence that never touches the train phase. -/
theorem metric_clone_independence_witness :
    (AliseFSSeg.init witModel witDecoder witConfig).train_metrics =
      witConfig.metrics.clone "train_" ∧
    (AliseFSSeg.init witModel witDecoder witConfig).val_metrics =
      witConfig.metrics.clone "val_" ∧
    (AliseFSSeg.init witModel witDecoder witConfig).test_metrics =
      witConfig.metrics.clone "test_" ∧
    (AliseFSSeg.init witModel witDecoder witConfig).train_metrics.pfx =
      "train_" ∧
    (AliseFSSeg.init witModel witDecoder witConfig).val_metrics.pfx =
      "val_" ∧
    (AliseFSSeg.init witModel witDecoder witConfig).test_metrics.pfx =
      "test_" ∧
    (witState.runOps witOps).phaseMetrics Phase.train =
      witState.phaseMetrics Phase.train ∧
    ((witState.runOps witOps).phaseMetrics Phase.train).compute =
      (witState.phaseMetrics Phase.train).compute :=
  metric_clone_independence witModel witDecoder witConfig witState witOps
    Phase.train
    (by decide)

/-- Running `training_step` over a list of batches appends one metric update
and one "train_loss" log event per batch, in order, and changes nothing
else. -/
theorem trainSteps_eq (batches : List CDBInput) (s : AliseFSSeg) :
    s.trainSteps batches = { s with
      train_metrics := { s.train_metrics with
        updates := s.train_metrics.updates ++
          batches.map (fun b => (s.forward b, labelSlice0 b.label)) }
      logged := s.logged ++ batches.map (fun b =>
        LogEvent.scalar "train_loss" (s.shared_step b).2 true true s.bs
          true) } := by
  induction batches generalizing s with
  | nil => simp [AliseFSSeg.trainSteps]
  | cons b bs ih =>
      show ((s.training_step b 0).1).trainSteps bs = _
      rw [ih]
      simp [AliseFSSeg.training_step, MetricCollection.update,
        AliseFSSeg.shared_step, AliseFSSeg.forward]

/-- Claim C7: starting from an empty train collection, running
`training_step` on N batches and then `on_train_epoch_end` appends exactly
one dict log event with one entry per metric name, each entry aggregating
exactly the N per-batch updates; and when every aggregation function is
invariant under permutation of its updates, the entries do not depend on the
order of the N batches. -/
theorem train_epoch_aggregates (s : AliseFSSeg)
    (batches batchesPerm : List CDBInput)
    (hupd : s.train_metrics.updates = [])
    (hsym : ∀ n l lp, List.Perm l lp →
      s.train_metrics.agg n l = s.train_metrics.agg n lp)
    (hperm : List.Perm batches batchesPerm) :
    ((s.trainSteps batches).on_train_epoch_end).logged =
      (s.trainSteps batches).logged ++
        [LogEvent.dict (s.train_metrics.names.map (fun n =>
          (s.train_metrics.pfx ++ n, s.train_metrics.agg n
            (batches.map (fun b => (s.forward b, labelSlice0 b.label))))))
          true s.bs true] ∧
    s.train_metrics.names.map (fun n =>
      (s.train_metrics.pfx ++ n, s.train_metrics.agg n
        (batches.map (fun b => (s.forward b, labelSlice0 b.label))))) =
    s.train_metrics.names.map (fun n =>
      (s.train_metrics.pfx ++ n, s.train_metrics.agg n
        (batchesPerm.map (fun b => (s.forward b, labelSlice0 b.label))))) := by
  constructor
  · rw [trainSteps_eq]
    simp [AliseFSSeg.on_train_epoch_end, MetricCollection.compute, hupd]
  · have hp : List.Perm
        (batches.map (fun b => (s.forward b, labelSlice0 b.label)))
        (batchesPerm.map (fun b => (s.forward b, labelSlice0 b.label))) :=
      hperm.map _
    exact List.map_congr_left (fun n _ => by rw [hsym n _ _ hp])

/-- Witness for claim C7: two concrete batches, an aggregation that counts
updates (permutation invariant), and the swapped batch order. -/
theorem train_epoch_aggregates_witness :
    ((witState.trainSteps [witBatch, witBatch2]).on_train_epoch_end).logged =
      (witState.trainSteps [witBatch, witBatch2]).logged ++
        [LogEvent.dict (witState.train_metrics.names.map (fun n =>
          (witState.train_metrics.pfx ++ n, witState.train_metrics.agg n
            ([witBatch, witBatch2].map (fun b =>
              (witState.forward b, labelSlice0 b.label))))))
          true witState.bs true] ∧
    witState.train_metrics.names.map (fun n =>
      (witState.train_metrics.pfx ++ n, witState.train_metrics.agg n
        ([witBatch, witBatch2].map (fun b =>
          (witState.forward b, labelSlice0 b.label))))) =
    witState.train_metrics.names.map (fun n =>
      (witState.train_metrics.pfx ++ n, witState.train_metrics.agg n
        ([witBatch2, witBatch].map (fun b =>
          (witState.forward b, labelSlice0 b.label))))) :=
  train_epoch_aggregates witState [witBatch, witBatch2] [witBatch2, witBatch]
    rfl
    (fun n l lp h => by
      show (⟨Device.cpu, (l.length : Int)⟩ : MVal) =
        ⟨Device.cpu, (lp.length : Int)⟩
      rw [h.length_eq])
    (List.Perm.swap witBatch2 witBatch [])
